import Mathlib

/-!
Verification development for the pi-poster-designer extension.

The definitions below are a shallow embedding of the TypeScript sources:
`src/config.ts` (data model, default configuration), the provider adapters
(`src/providers/openai.ts`, `gemini.ts`, `grok.ts`, `nano-banana-pro.ts`:
factory functions reading environment variables, and the OpenAI size
bucketing), and the `design_poster` tool's `execute` orchestrator in
`src/index.ts` (pre-loop configuration checks, sequential generation loop
with progress updates, abort polling and per-style failure isolation).

External effects (filesystem writes, network requests, progress
notifications) are modelled as an explicit effect trace accumulated by the
orchestrator; a provider adapter's `generate` call is modelled as a
caller-supplied function returning `Except String GeneratedImage`, the
`String` being the thrown error's message.  Base64 decoding of image
payloads is kept abstract: bytes are represented by their payload string.
-/

/-- Structure `StyleConfig` from `src/config.ts`. -/
structure StyleConfig where
  id : String
  name : String
  description : String
  promptTemplate : String
deriving DecidableEq, Repr

/-- Structure `SizeConfig` from `src/config.ts`. -/
structure SizeConfig where
  width : Nat
  height : Nat
  name : String
deriving DecidableEq, Repr

/-- Structure `ProviderConfigItem` from `src/config.ts`. -/
structure ProviderConfigItem where
  apiKeyEnv : String
  enabled : Bool
  defaultModel : String
  availableModels : List String
deriving DecidableEq, Repr

/-- Structure `Config` from `src/config.ts`.  The TS `Record<string, _>` maps are
modelled as association lists in their literal key order. -/
structure Config where
  defaultSize : SizeConfig
  sizes : List (String × SizeConfig)
  styles : List StyleConfig
  defaultProvider : String
  providers : List (String × ProviderConfigItem)
deriving DecidableEq, Repr

/-- Value `defaultConfig` from `src/config.ts`, transcribed literally. -/
def defaultConfig : Config :=
  { defaultSize := { width := 2480, height := 3508, name := "A4 (300dpi)" }
    sizes :=
      [ ("a4", { width := 2480, height := 3508, name := "A4 (300dpi)" })
      , ("a4-landscape", { width := 3508, height := 2480, name := "A4 Landscape" })
      , ("instagram", { width := 1080, height := 1080, name := "Instagram Square" })
      , ("instagram-story", { width := 1080, height := 1920, name := "Instagram Story" })
      , ("facebook", { width := 1200, height := 630, name := "Facebook Post" }) ]
    styles :=
      [ { id := "tjc-style"
          name := "真耶穌教會風格"
          description := "符合活動主題與真耶穌教會的風格，排除一切不適合的設計"
          promptTemplate := "Design a professional event poster for True Jesus Church.\nStyle: Clean, reverent, dignified.\nUse appropriate religious imagery that aligns with True Jesus Church values.\nAvoid: crosses with human figures, Catholic/Orthodox iconography, overly decorative or flashy elements, anything inappropriate for a conservative Christian church.\nColors: Prefer blue, white, gold, or earth tones.\nTypography: Clear, readable, professional.\nInclude subtle Christian elements like dove, bible, wheat, or simple geometric patterns.\n\nEvent details:\n{eventInfo}" }
      , { id := "christian-general"
          name := "一般基督教風格"
          description := "符合活動主題與多數基督教可接受的設計元素，避免過度偏激的設計"
          promptTemplate := "Design an event poster suitable for a Christian church event.\nStyle: Modern, welcoming, spiritually uplifting.\nUse general Christian design elements that are broadly acceptable across denominations.\nInclude: soft lighting, nature elements, community/fellowship themes, subtle religious symbols.\nAvoid: controversial imagery, extreme or provocative designs, denominational-specific symbols.\nColors: Warm and inviting palette.\nTypography: Modern yet respectful.\n\nEvent details:\n{eventInfo}" }
      , { id := "creative-free"
          name := "創意自由風格"
          description := "符合活動即可，可以天馬行空的設計"
          promptTemplate := "Design a creative and eye-catching event poster.\nStyle: Bold, innovative, artistic freedom.\nBe creative with colors, typography, and visual elements.\nMatch the event theme with imaginative interpretations.\nCan use abstract art, modern design trends, unique layouts, striking visuals.\nMake it memorable and visually impactful while still clearly communicating the event information.\n\nEvent details:\n{eventInfo}" } ]
    defaultProvider := "gemini"
    providers :=
      [ ("gemini",
          { apiKeyEnv := "GEMINI_API_KEY", enabled := true
            defaultModel := "gemini-2.5-flash-image"
            availableModels :=
              ["gemini-2.5-flash-image", "gemini-3-pro-image-preview", "imagen-4.0-generate-001"] })
      , ("nano-banana-pro",
          { apiKeyEnv := "GEMINI_API_KEY", enabled := true
            defaultModel := "nano-banana-pro"
            availableModels := ["nano-banana-pro"] })
      , ("grok",
          { apiKeyEnv := "GROK_API_KEY", enabled := true
            defaultModel := "grok-2-image"
            availableModels := ["grok-2-image"] })
      , ("openai",
          { apiKeyEnv := "OPENAI_API_KEY", enabled := true
            defaultModel := "dall-e-3"
            availableModels := ["dall-e-3", "dall-e-2"] }) ]
  }

/-- The process environment (`process.env`), as an association list. -/
abbrev Env := List (String × String)

/-- Reading an environment variable: the first binding for the key. -/
def envGet (env : Env) (k : String) : Option String :=
  (env.find? (fun p => p.1 == k)).map (fun p => p.2)

/-- Lookup in a TS `Record<string, α>` modelled as an association list. -/
def lookupKey {α : Type} (m : List (String × α)) (k : String) : Option α :=
  (m.find? (fun p => p.1 == k)).map (fun p => p.2)

/-- JavaScript truthiness of an optional string: `undefined` and the empty
string are both falsy (`if (!apiKey) return null` rejects `""` as well). -/
def jsTruthy (o : Option String) : Option String :=
  match o with
  | none => none
  | some s => if s == "" then none else some s

/-- A constructed provider adapter: its name, the credential it is bound to
and the model id it will call.  Captures the observable configuration of the
TS provider classes. -/
structure Adapter where
  name : String
  apiKey : String
  model : String
deriving DecidableEq, Repr

/-- Function `createGeminiProvider()` from `src/providers/gemini.ts`: reads
`GEMINI_API_KEY`; the constructor's default model is
`"gemini-2.5-flash-image"`. -/
def createGeminiProvider (env : Env) : Option Adapter :=
  match jsTruthy (envGet env "GEMINI_API_KEY") with
  | none => none
  | some apiKey => some { name := "gemini", apiKey := apiKey, model := "gemini-2.5-flash-image" }

/-- Function `createNanaBananaProProvider()` from `src/providers/nano-banana-pro.ts`:
reads `GEMINI_API_KEY`; the constructor's default model is
`"gemini-3-pro-image-preview"` (no model argument is passed). -/
def createNanaBananaProProvider (env : Env) : Option Adapter :=
  match jsTruthy (envGet env "GEMINI_API_KEY") with
  | none => none
  | some apiKey =>
    some { name := "nano-banana-pro", apiKey := apiKey, model := "gemini-3-pro-image-preview" }

/-- Function `createGrokProvider()` from `src/providers/grok.ts`: reads
`GROK_API_KEY || XAI_API_KEY`; default model `"grok-2-image"`. -/
def createGrokProvider (env : Env) : Option Adapter :=
  match jsTruthy (envGet env "GROK_API_KEY") with
  | some apiKey => some { name := "grok", apiKey := apiKey, model := "grok-2-image" }
  | none =>
    match jsTruthy (envGet env "XAI_API_KEY") with
    | some apiKey => some { name := "grok", apiKey := apiKey, model := "grok-2-image" }
    | none => none

/-- Function `createOpenAIProvider()` from `src/providers/openai.ts`: reads
`OPENAI_API_KEY`; default model `"dall-e-3"`. -/
def createOpenAIProvider (env : Env) : Option Adapter :=
  match jsTruthy (envGet env "OPENAI_API_KEY") with
  | none => none
  | some apiKey => some { name := "openai", apiKey := apiKey, model := "dall-e-3" }

/-- Function `getProvider(name, config)` from `src/index.ts`: descriptor lookup,
`enabled` check, then a switch on the provider name (the TS `switch` is an
equivalent if-chain here). -/
def getProvider (env : Env) (name : String) (config : Config) : Option Adapter :=
  match lookupKey config.providers name with
  | none => none
  | some providerConfig =>
    if !providerConfig.enabled then none
    else if name == "gemini" then createGeminiProvider env
    else if name == "nano-banana-pro" then createNanaBananaProProvider env
    else if name == "grok" then createGrokProvider env
    else if name == "openai" then createOpenAIProvider env
    else none

/-- Function `OpenAIProvider.mapSize` from `src/providers/openai.ts`: the aspect
ratio `width / height` (exact rational arithmetic standing for the JS
division) bucketed into the three DALL-E sizes. -/
def mapSize (width height : Nat) : String :=
  let ratio : ℚ := (width : ℚ) / (height : ℚ)
  if ratio > 3 / 2 then "1792x1024"
  else if ratio < 67 / 100 then "1024x1792"
  else "1024x1024"

/-- The vendor HTTP response an adapter sees, abstracted: success flag and
status (`response.ok`, `response.status`), body text, and the `b64_json`
fields of the `data` array of the parsed JSON body. -/
structure HttpResponse where
  ok : Bool
  status : Nat
  body : String
  dataB64 : List String
deriving DecidableEq, Repr

/-- Structure `GeneratedImage` from `src/providers/types.ts` (bytes kept abstract as
the payload string). -/
structure GeneratedImage where
  data : String
  mimeType : String
  filename : String
deriving DecidableEq, Repr

/-- Function `OpenAIProvider.generate` from `src/providers/openai.ts`, as a function
of the vendor response: a non-success HTTP status throws
`OpenAI API error: {status} - {body}`; an empty `data` array throws
`No image data in OpenAI response`; otherwise the first entry's payload is
returned (`now` stands for `Date.now()` in the suggested filename). -/
def openaiGenerate (resp : HttpResponse) (now : Nat) : Except String GeneratedImage :=
  if !resp.ok then
    .error ("OpenAI API error: " ++ toString resp.status ++ " - " ++ resp.body)
  else
    match resp.dataB64 with
    | [] => .error "No image data in OpenAI response"
    | d :: _ => .ok { data := d, mimeType := "image/png", filename := "poster-" ++ toString now ++ ".png" }

/-- The left-brace character, written by code to keep brace handling in the
prompt templates explicit. -/
def lbrace : Char := Char.ofNat 123

/-- Does `pat` match at the head of the second list?  (Character-wise prefix
test used by the first-occurrence replacement below.) -/
def matchesAt : List Char → List Char → Bool
  | [], _ => true
  | _ :: _, [] => false
  | p :: ps, c :: cs => p == c && matchesAt ps cs

/-- The dollar character (code 36), head of the replacement escapes of
ECMA-262 GetSubstitution. -/
def dollarChar : Char := Char.ofNat 36

/-- The ampersand character (code 38): after a dollar it inserts the
matched substring. -/
def ampChar : Char := Char.ofNat 38

/-- The backquote character (code 96): after a dollar it inserts the part
of the subject before the match. -/
def backquoteChar : Char := Char.ofNat 96

/-- The single-quote character (code 39): after a dollar it inserts the
part of the subject after the match. -/
def quoteChar : Char := Char.ofNat 39

/-- ECMA-262 GetSubstitution for a string-pattern `replace` call (no
capture groups, no named captures): in the replacement text, dollar-dollar
becomes a dollar, dollar-ampersand becomes the matched substring
(`matched`), dollar-backquote becomes the subject text before the match
(`before`), dollar-quote becomes the subject text after the match
(`after`); a dollar followed by anything else (including digits, since
there are no capture groups, and a trailing dollar) is literal. -/
def getSubstitution (matched before after : List Char) : List Char → List Char
  | [] => []
  | [c] => [c]
  | c :: d :: rest =>
    if c = dollarChar then
      if d = dollarChar then dollarChar :: getSubstitution matched before after rest
      else if d = ampChar then matched ++ getSubstitution matched before after rest
      else if d = backquoteChar then before ++ getSubstitution matched before after rest
      else if d = quoteChar then after ++ getSubstitution matched before after rest
      else c :: getSubstitution matched before after (d :: rest)
    else c :: getSubstitution matched before after (d :: rest)

/-- JavaScript `String.prototype.replace` with a string pattern replaces
only the FIRST occurrence, and the replacement string goes through
GetSubstitution at the match position.  `before` accumulates the scanned
prefix in reverse; a pattern that never matches leaves the input
unchanged. -/
def replaceFirstAux (pat rep : List Char) : List Char → List Char → List Char
  | _, [] => []
  | before, c :: rest =>
    if matchesAt pat (c :: rest) then
      getSubstitution pat before.reverse ((c :: rest).drop pat.length) rep
        ++ (c :: rest).drop pat.length
    else c :: replaceFirstAux pat rep (c :: before) rest

/-- Function `jsReplace` is `s.replace(pat, rep)` for a non-empty string pattern `pat`. -/
def jsReplace (s pat rep : String) : String :=
  ⟨replaceFirstAux pat.data rep.data [] s.data⟩

/-- Does `pat` occur anywhere in the list? -/
def hasMatch (pat : List Char) : List Char → Bool
  | [] => matchesAt pat []
  | c :: rest => matchesAt pat (c :: rest) || hasMatch pat (rest)

/-- The `design_poster` tool's parameters (`DesignPosterParams` in
`src/index.ts`); optional parameters are `Option`s. -/
structure DesignPosterInput where
  eventInfo : String
  styles : Option (List String)
  size : Option String
  provider : Option String
deriving DecidableEq, Repr

/-- Structure `GenerationRequest` from `src/providers/types.ts`. -/
structure GenerationRequest where
  prompt : String
  width : Nat
  height : Nat
  style : String
deriving DecidableEq, Repr

/-- One entry of the orchestrator's `results` array in `src/index.ts`. -/
structure StyleOutcome where
  style : String
  styleName : String
  path : String
  success : Bool
  error : Option String
  imageData : Option String
  mimeType : Option String
deriving DecidableEq, Repr

/-- The orchestrator's externally observable side effects, in program
order: directories created (`mkdirSync`), files written (`writeFileSync`),
network requests issued (`imageProvider.generate`), and progress
notifications emitted (`onUpdate`, recorded as
`(progress, total, styleName)`). -/
structure ExecEffects where
  dirsCreated : List String
  filesWritten : List (String × String)
  requests : List GenerationRequest
  updates : List (Nat × Nat × String)
deriving DecidableEq, Repr

/-- The empty effect trace. -/
def noEffects : ExecEffects := ⟨[], [], [], []⟩

/-- The value returned by `execute`: one of the two pre-loop configuration
error results (user-facing text and `details.error` string), or the normal
result carrying the output directory, the resolved size and the per-style
outcomes. -/
inductive ExecResult where
  | configError (text : String) (errorDetail : String)
  | done (outputDir : String) (size : SizeConfig) (results : List StyleOutcome)
deriving DecidableEq, Repr

/-- Did the run get past the pre-loop configuration checks? -/
def ExecResult.isDone : ExecResult → Bool
  | .done _ _ _ => true
  | .configError _ _ => false

/-- The outcome list of a normal result (empty for a configuration
error, which carries no partial outcomes). -/
def ExecResult.resultsList : ExecResult → List StyleOutcome
  | .done _ _ rs => rs
  | .configError _ _ => []

/-- Line `const sizeKey = size || "a4"` (JS `||`: the empty string is falsy). -/
def resolveSizeKey (size : Option String) : String :=
  match size with
  | none => "a4"
  | some s => if s == "" then "a4" else s

/-- Line `const sizeConfig = config.sizes[sizeKey] || config.defaultSize`,
restricted to the case where the bracket lookup yields a genuine size
entry or is falsy (`undefined`): own keys resolve to their entry, absent
keys to the default.  The full JS semantics, including keys inherited from
`Object.prototype`, is `sizeLookup` below; `resolveSize_agrees` relates
the two. -/
def resolveSize (cfg : Config) (size : Option String) : SizeConfig :=
  (lookupKey cfg.sizes (resolveSizeKey size)).getD cfg.defaultSize

/-- The own-property names of `Object.prototype`: a JS bracket lookup on an
object literal finds these even when the object has no such own key, and
their values (functions, and the prototype object itself for the dunder
proto accessor) are truthy. -/
def objectProtoKeys : List String :=
  ["constructor", "hasOwnProperty", "isPrototypeOf", "propertyIsEnumerable",
   "toLocaleString", "toString", "valueOf",
   "__defineGetter__", "__defineSetter__", "__lookupGetter__", "__lookupSetter__",
   "__proto__"]

/-- The JS value of `config.sizes[sizeKey] || config.defaultSize`: either a
genuine size entry (an own entry, or the default after a falsy lookup), or
a truthy value inherited from `Object.prototype` — in which case the
fallback never fires and the selected value is not a size entry at all. -/
inductive SizeResolution where
  | entry (sc : SizeConfig)
  | protoValue (k : String)
deriving DecidableEq, Repr

/-- Faithful model of `config.sizes[sizeKey] || config.defaultSize`:
own keys yield their entry; keys inherited from `Object.prototype` yield
the inherited truthy value, short-circuiting the fallback; all other keys
are `undefined` and fall back to the default entry. -/
def sizeLookup (cfg : Config) (size : Option String) : SizeResolution :=
  let key := resolveSizeKey size
  match lookupKey cfg.sizes key with
  | some sc => .entry sc
  | none =>
    if objectProtoKeys.contains key then .protoValue key
    else .entry cfg.defaultSize

/-- Line `const stylesToUse = requestedStyles ? config.styles.filter(...) :
config.styles` (an empty requested array is truthy in JS, hence
`some []` filters to nothing). -/
def stylesToUse (cfg : Config) (requested : Option (List String)) : List StyleConfig :=
  match requested with
  | some ids => cfg.styles.filter (fun s => ids.contains s.id)
  | none => cfg.styles

/-- Line `const providerName = requestedProvider || config.defaultProvider`. -/
def resolveProviderName (cfg : Config) (provider : Option String) : String :=
  match provider with
  | none => cfg.defaultProvider
  | some p => if p == "" then cfg.defaultProvider else p

/-- The prompt sent for one style:
`style.promptTemplate.replace("{eventInfo}", eventInfo)`. -/
def buildPrompt (style : StyleConfig) (eventInfo : String) : String :=
  jsReplace style.promptTemplate "{eventInfo}" eventInfo

/-- The `GenerationRequest` passed to `imageProvider.generate` for one
style. -/
def requestFor (eventInfo : String) (sc : SizeConfig) (style : StyleConfig) : GenerationRequest :=
  { prompt := buildPrompt style eventInfo
    width := sc.width
    height := sc.height
    style := style.id }

/-- The behaviour of the resolved provider's `generate` across the run: for
the `i`-th loop iteration and its request, either the returned image or the
thrown error's message. -/
abbrev Gen := Nat → GenerationRequest → Except String GeneratedImage

/-- The generation loop of `execute` (`for (let i = 0; ...)` in
`src/index.ts`): at iteration `i` it emits the progress notification, then
checks `signal.aborted` and breaks if set (no outcome for this or any later
style), otherwise issues the network call; a successful call writes the file
and records a success outcome, a thrown error is caught and recorded as a
failure outcome carrying the message, and the loop continues either way. -/
def genLoop (gen : Gen) (aborted : Nat → Bool) (outputDir eventInfo : String)
    (sc : SizeConfig) (total : Nat) :
    Nat → List StyleConfig → List StyleOutcome × ExecEffects
  | _, [] => ([], noEffects)
  | i, style :: rest =>
    let upd := (i + 1, total, style.name)
    if aborted i then
      ([], ⟨[], [], [], [upd]⟩)
    else
      let req := requestFor eventInfo sc style
      match gen i req with
      | .ok image =>
        let outputPath := outputDir ++ "/" ++ style.id ++ "-" ++ image.filename
        let out := genLoop gen aborted outputDir eventInfo sc total (i + 1) rest
        (⟨style.id, style.name, outputPath, true, none, some image.data, some image.mimeType⟩
            :: out.1,
         ⟨out.2.dirsCreated, (outputPath, image.data) :: out.2.filesWritten,
          req :: out.2.requests, upd :: out.2.updates⟩)
      | .error msg =>
        let out := genLoop gen aborted outputDir eventInfo sc total (i + 1) rest
        (⟨style.id, style.name, "", false, some msg, none, none⟩ :: out.1,
         ⟨out.2.dirsCreated, out.2.filesWritten, req :: out.2.requests, upd :: out.2.updates⟩)

/-- The `design_poster` `execute` function from `src/index.ts`: size-key
resolution, style selection, the two pre-loop configuration checks (each
returning a single error result before any directory creation, file write
or network call), then `mkdirSync(outputDir)` and the generation loop.
`outputDir` stands for the timestamp-derived temporary directory. -/
def execute (cfg : Config) (env : Env) (gen : Gen) (aborted : Nat → Bool)
    (outputDir : String) (params : DesignPosterInput) : ExecResult × ExecEffects :=
  let sizeConfig := resolveSize cfg params.size
  let sel := stylesToUse cfg params.styles
  if sel.length == 0 then
    (.configError "錯誤：找不到指定的風格" "No matching styles found", noEffects)
  else
    let providerName := resolveProviderName cfg params.provider
    match getProvider env providerName cfg with
    | none =>
      (.configError ("錯誤：圖片生成服務 " ++ providerName ++ " 不可用。請確認 API 金鑰已設定。")
        ("Provider " ++ providerName ++ " not available"), noEffects)
    | some _adapter =>
      let out := genLoop gen aborted outputDir params.eventInfo sizeConfig sel.length 0 sel
      (.done outputDir sizeConfig out.1,
       ⟨outputDir :: out.2.dirsCreated, out.2.filesWritten, out.2.requests, out.2.updates⟩)

/-- The outcome the loop records for the `i`-th iteration on `style`,
determined solely by that style's own `generate` call. -/
def styleOutcomeOf (gen : Gen) (outputDir eventInfo : String) (sc : SizeConfig)
    (i : Nat) (style : StyleConfig) : StyleOutcome :=
  match gen i (requestFor eventInfo sc style) with
  | .ok image =>
    ⟨style.id, style.name, outputDir ++ "/" ++ style.id ++ "-" ++ image.filename,
     true, none, some image.data, some image.mimeType⟩
  | .error msg => ⟨style.id, style.name, "", false, some msg, none, none⟩

/-- Per-style outcomes for a list of styles starting at iteration `i`, each
entry depending only on its own style's call. -/
def outcomesSpec (gen : Gen) (outputDir eventInfo : String) (sc : SizeConfig) :
    Nat → List StyleConfig → List StyleOutcome
  | _, [] => []
  | i, s :: rest =>
    styleOutcomeOf gen outputDir eventInfo sc i s
      :: outcomesSpec gen outputDir eventInfo sc (i + 1) rest

/-- The files the loop writes for a list of styles starting at iteration
`i`: one per successful call. -/
def filesSpec (gen : Gen) (outputDir eventInfo : String) (sc : SizeConfig) :
    Nat → List StyleConfig → List (String × String)
  | _, [] => []
  | i, s :: rest =>
    (match gen i (requestFor eventInfo sc s) with
     | .ok image => [(outputDir ++ "/" ++ s.id ++ "-" ++ image.filename, image.data)]
     | .error _ => []) ++ filesSpec gen outputDir eventInfo sc (i + 1) rest

/-- The progress notifications for a list of styles starting at iteration
`i`: `(i + 1, total, styleName)` each. -/
def updatesSpec (total : Nat) : Nat → List StyleConfig → List (Nat × Nat × String)
  | _, [] => []
  | i, s :: rest => (i + 1, total, s.name) :: updatesSpec total (i + 1) rest

/-- The part of a prompt template before its trailing placeholder: all but
the last eleven characters (the length of the placeholder token). -/
def templateBeforePlaceholder (t : String) : String :=
  ⟨t.data.take (t.data.length - 11)⟩

/-- The first catalog style (used as a concrete instance in witnesses). -/
def tjcStyle : StyleConfig := defaultConfig.styles.getD 0 ⟨"", "", "", ""⟩

/-- A concrete environment holding only a Gemini credential. -/
def demoEnv : Env := [("GEMINI_API_KEY", "key-1")]

/-- A concrete generated image. -/
def demoImage : GeneratedImage :=
  { data := "img-bytes", mimeType := "image/png", filename := "poster-1.png" }

/-- A concrete provider behaviour that always succeeds. -/
def demoGenOk : Gen := fun _ _ => .ok demoImage

/-- A concrete provider behaviour whose first call throws an HTTP failure
and whose later calls succeed. -/
def demoGenFail0 : Gen := fun i _ =>
  if i == 0 then .error "Gemini API error: 500 - internal error" else .ok demoImage

/-- A concrete invocation: two requested styles, defaults otherwise. -/
def demoParamsTwoStyles : DesignPosterInput :=
  { eventInfo := "Outdoor concert 2025-03-22 15:30"
    styles := some ["tjc-style", "creative-free"], size := none, provider := none }

/-- A concrete invocation selecting all catalog styles. -/
def demoParamsAll : DesignPosterInput :=
  { eventInfo := "Outdoor concert 2025-03-22 15:30"
    styles := none, size := none, provider := none }

/-- A concrete invocation whose requested style ids match nothing. -/
def demoParamsUnknownStyle : DesignPosterInput :=
  { eventInfo := "Outdoor concert", styles := some ["no-such-style"]
    size := none, provider := none }

/-- A concrete invocation requesting the (here unconfigured) OpenAI
provider. -/
def demoParamsOpenAI : DesignPosterInput :=
  { eventInfo := "Outdoor concert", styles := none, size := none, provider := some "openai" }

/-- A pattern matches at the head of its own append. -/
theorem matchesAt_append_self (p t : List Char) : matchesAt p (p ++ t) = true := by
  induction p with
  | nil => rfl
  | cons c cs ih => simp [matchesAt, ih]

/-- GetSubstitution leaves a dollar-free replacement text unchanged. -/
theorem getSubstitution_no_dollar (m b a : List Char) :
    ∀ rep : List Char, dollarChar ∉ rep → getSubstitution m b a rep = rep := by
  intro rep
  induction rep with
  | nil => intro h; rfl
  | cons c rest ih =>
    intro h
    have hc : ¬ c = dollarChar := fun hh => h (List.mem_cons.mpr (Or.inl hh.symm))
    cases rest with
    | nil => rfl
    | cons d rest2 =>
      have hrest : dollarChar ∉ d :: rest2 := fun hh => h (List.mem_cons_of_mem c hh)
      simp [getSubstitution, hc, ih hrest]

/-- First-occurrence replacement of a brace-headed pattern in a string that
is a brace-free part followed by the pattern and a suffix: the pattern part
is replaced by the GetSubstitution expansion of the replacement text (with
the scanned prefix and the suffix as its context), everything around it
kept. -/
theorem replaceFirstAux_split (pt rep suf : List Char) :
    ∀ l acc : List Char, lbrace ∉ l →
      replaceFirstAux (lbrace :: pt) rep acc (l ++ (lbrace :: pt) ++ suf)
        = l ++ (getSubstitution (lbrace :: pt) (acc.reverse ++ l) suf rep ++ suf) := by
  intro l
  induction l with
  | nil =>
    intro acc _
    have hm : matchesAt (lbrace :: pt) (lbrace :: (pt ++ suf)) = true := by
      simpa using matchesAt_append_self (lbrace :: pt) suf
    simp [replaceFirstAux, hm, List.drop_left]
  | cons c l2 ih =>
    intro acc hnotin
    have hc : (lbrace == c) = false := by
      apply beq_eq_false_iff_ne.mpr
      intro h
      exact hnotin (by rw [h]; exact List.mem_cons_self c l2)
    have htail : lbrace ∉ l2 := fun h => hnotin (List.mem_cons_of_mem c h)
    have ih2 := ih (c :: acc) htail
    simp only [List.append_assoc, List.cons_append, List.reverse_cons,
      List.singleton_append] at ih2
    simp [replaceFirstAux, matchesAt, hc, ih2, List.reverse_cons, List.append_assoc]

/-- Substituting the event text into a template that is a brace-free part
followed by the placeholder yields that part followed by the
GetSubstitution expansion of the event text. -/
theorem buildPrompt_split (s : StyleConfig) (pre : String)
    (h1 : s.promptTemplate = pre ++ "{eventInfo}")
    (h2 : lbrace ∉ pre.data) (ev : String) :
    buildPrompt s ev
      = pre ++ ⟨getSubstitution (("{eventInfo}" : String).data) pre.data [] ev.data⟩ := by
  apply String.ext
  have hpat : ("{eventInfo}" : String).data = lbrace :: ("eventInfo\x7d" : String).data := by decide
  show (jsReplace s.promptTemplate "{eventInfo}" ev).data
      = (pre ++ (⟨getSubstitution (("{eventInfo}" : String).data) pre.data [] ev.data⟩ : String)).data
  have hstep : (jsReplace s.promptTemplate "{eventInfo}" ev).data
      = replaceFirstAux ("{eventInfo}" : String).data ev.data [] s.promptTemplate.data := rfl
  rw [hstep, h1, String.data_append, String.data_append, hpat]
  have hsplit := replaceFirstAux_split (("eventInfo\x7d" : String).data) ev.data [] pre.data [] h2
  simpa using hsplit

/-- For an event text containing no dollar character the GetSubstitution
expansion is the identity, so the substitution inserts the text exactly as
given. -/
theorem buildPrompt_no_dollar (s : StyleConfig) (pre : String)
    (h1 : s.promptTemplate = pre ++ "{eventInfo}")
    (h2 : lbrace ∉ pre.data) (ev : String) (hd : dollarChar ∉ ev.data) :
    buildPrompt s ev = pre ++ ev := by
  rw [buildPrompt_split s pre h1 h2 ev,
    getSubstitution_no_dollar (("{eventInfo}" : String).data) pre.data [] ev.data hd]

set_option maxRecDepth 100000 in
/-- C8 counterexample: event text is not always inserted exactly as given —
the replacement string goes through the GetSubstitution escapes of
JavaScript `replace`.  For the event text consisting of a dollar and an
ampersand, the matched placeholder is re-inserted, so the prompt is the
unmodified template, which differs from the template with the placeholder
replaced by that text as given. -/
theorem prompt_substitution_counterexample :
    buildPrompt tjcStyle "$&" = tjcStyle.promptTemplate ∧
    buildPrompt tjcStyle "$&"
        ≠ templateBeforePlaceholder tjcStyle.promptTemplate ++ "$&" ∧
    tjcStyle.promptTemplate
        = templateBeforePlaceholder tjcStyle.promptTemplate ++ "{eventInfo}" := by
  refine ⟨by decide, by decide, by decide⟩

set_option maxRecDepth 100000 in
/-- C8 (amended): for every catalog style, the template is a brace-free
part followed by the single trailing `eventInfo` placeholder, and the
prompt sent to the adapter is that part followed by the ECMA-262
GetSubstitution expansion of the caller-supplied event text (dollar-escape
sequences are rewritten); whenever the event text contains no dollar
character the expansion is the identity and the text is inserted exactly
as given, with the rest of the template unchanged. -/
theorem prompt_substitution :
    ∀ s ∈ defaultConfig.styles,
      s.promptTemplate = templateBeforePlaceholder s.promptTemplate ++ "{eventInfo}" ∧
      lbrace ∉ (templateBeforePlaceholder s.promptTemplate).data ∧
      (∀ ev : String, buildPrompt s ev
         = templateBeforePlaceholder s.promptTemplate
             ++ ⟨getSubstitution (("{eventInfo}" : String).data)
                   (templateBeforePlaceholder s.promptTemplate).data [] ev.data⟩) ∧
      (∀ ev : String, dollarChar ∉ ev.data →
         buildPrompt s ev = templateBeforePlaceholder s.promptTemplate ++ ev) := by
  intro s hs
  have h1 : s.promptTemplate = templateBeforePlaceholder s.promptTemplate ++ "{eventInfo}" := by
    fin_cases hs <;> decide
  have h2 : lbrace ∉ (templateBeforePlaceholder s.promptTemplate).data := by
    fin_cases hs <;> decide
  exact ⟨h1, h2, buildPrompt_split s _ h1 h2,
    fun ev hd => buildPrompt_no_dollar s _ h1 h2 ev hd⟩

set_option maxRecDepth 100000 in
/-- Witness for the amended C8 theorem at the first catalog style and a
dollar-free event text. -/
theorem prompt_substitution_witness :
    (tjcStyle ∈ defaultConfig.styles) ∧
    (dollarChar ∉ ("Outdoor concert" : String).data) ∧
    buildPrompt tjcStyle "Outdoor concert"
      = templateBeforePlaceholder tjcStyle.promptTemplate ++ "Outdoor concert" :=
  ⟨by decide, by decide,
   (prompt_substitution tjcStyle (by decide)).2.2.2 "Outdoor concert" (by decide)⟩

/-- C6: the OpenAI size mapping is total on positive dimensions and buckets
by aspect ratio with strict inequalities: ratio above three halves gives
the wide size, ratio below sixty-seven hundredths gives the tall size,
anything else (including exactly three halves) gives the square size;
ratios 3.0, 0.33, 1.0 and 1.5 land in wide, tall, square and square. -/
theorem mapSize_buckets :
    (∀ w h : Nat, 0 < w → 0 < h →
       mapSize w h =
         if 3 * h < 2 * w then "1792x1024"
         else if 100 * w < 67 * h then "1024x1792"
         else "1024x1024") ∧
    mapSize 3000 1000 = "1792x1024" ∧
    mapSize 1000 3000 = "1024x1792" ∧
    mapSize 1080 1080 = "1024x1024" ∧
    mapSize 3000 2000 = "1024x1024" := by
  have hgen : ∀ w h : Nat, 0 < w → 0 < h →
      mapSize w h =
        if 3 * h < 2 * w then "1792x1024"
        else if 100 * w < 67 * h then "1024x1792"
        else "1024x1024" := by
    intro w h hw hh
    have hh0 : (0 : ℚ) < (h : ℚ) := by exact_mod_cast hh
    have e1 : ((w : ℚ) / (h : ℚ) > 3 / 2) ↔ 3 * h < 2 * w := by
      rw [gt_iff_lt, div_lt_div_iff₀ (by norm_num) hh0]
      constructor <;> intro H
      · exact_mod_cast (by linarith : (3 : ℚ) * h < 2 * w)
      · have hq : (3 : ℚ) * h < 2 * w := by exact_mod_cast H
        linarith
    have e2 : ((w : ℚ) / (h : ℚ) < 67 / 100) ↔ 100 * w < 67 * h := by
      rw [div_lt_div_iff₀ hh0 (by norm_num)]
      constructor <;> intro H
      · exact_mod_cast (by linarith : (100 : ℚ) * w < 67 * h)
      · have hq : (100 : ℚ) * w < 67 * h := by exact_mod_cast H
        linarith
    simp only [mapSize]
    rw [if_congr e1 rfl (if_congr e2 rfl rfl)]
  refine ⟨hgen, ?_, ?_, ?_, ?_⟩ <;>
    rw [hgen _ _ (by norm_num) (by norm_num)] <;> norm_num

/-- Witness for the C6 theorem: the general bucket characterization applied
at the concrete wide-ratio input. -/
theorem mapSize_buckets_witness :
    0 < 3000 ∧ 0 < 1000 ∧
    mapSize 3000 1000 =
      (if 3 * 1000 < 2 * 3000 then "1792x1024"
       else if 100 * 3000 < 67 * 1000 then "1024x1792"
       else "1024x1024") :=
  ⟨by decide, by decide, mapSize_buckets.1 3000 1000 (by decide) (by decide)⟩

/-- Re-filtering a catalog with distinct ids by the ids of a previous
filtering result reproduces that result. -/
theorem filter_reselect (l : List StyleConfig)
    (hinj : ∀ x ∈ l, ∀ y ∈ l, x.id = y.id → x = y) (ids : List String) :
    l.filter (fun s => ((l.filter (fun t => ids.contains t.id)).map (fun t => t.id)).contains s.id)
      = l.filter (fun s => ids.contains s.id) := by
  apply List.filter_congr
  intro s hs
  rw [Bool.eq_iff_iff]
  simp only [List.elem_iff, List.mem_map, List.mem_filter]
  constructor
  · rintro ⟨t, ⟨htl, htc⟩, hid⟩
    rwa [hinj t htl s hs hid] at htc
  · intro h
    exact ⟨s, ⟨hs, h⟩, rfl⟩

set_option maxRecDepth 100000 in
/-- C4: style selection is a pure function of the requested id list and the
catalog: omitting the list yields the whole catalog; providing it yields
exactly the catalog entries whose id is requested, in catalog order (a
sublist of the catalog, never caller order), dropping unknown ids; the
concrete pair selection comes back in catalog order; and re-selecting the
ids of a selection reproduces it. -/
theorem style_selection :
    stylesToUse defaultConfig none = defaultConfig.styles ∧
    (∀ ids, (stylesToUse defaultConfig (some ids)).Sublist defaultConfig.styles) ∧
    (∀ ids s, s ∈ stylesToUse defaultConfig (some ids) ↔ s ∈ defaultConfig.styles ∧ s.id ∈ ids) ∧
    (stylesToUse defaultConfig (some ["creative-free", "tjc-style"])).map (fun s => s.id)
      = ["tjc-style", "creative-free"] ∧
    (∀ ids,
      stylesToUse defaultConfig
          (some ((stylesToUse defaultConfig (some ids)).map (fun s => s.id)))
        = stylesToUse defaultConfig (some ids)) := by
  refine ⟨rfl, ?_, ?_, by decide, ?_⟩
  · intro ids
    show (defaultConfig.styles.filter (fun s => ids.contains s.id)).Sublist defaultConfig.styles
    exact List.filter_sublist defaultConfig.styles
  · intro ids s
    simp [stylesToUse, List.mem_filter, List.elem_iff]
  · intro ids
    have hinj : ∀ x ∈ defaultConfig.styles, ∀ y ∈ defaultConfig.styles, x.id = y.id → x = y := by
      decide
    exact filter_reselect defaultConfig.styles hinj ids

/-- Whenever the faithful JS lookup yields a genuine size entry (an own
key or the falsy-fallback default), `resolveSize`, the restricted model
used by the orchestrator, agrees with it. -/
theorem resolveSize_agrees (cfg : Config) (size : Option String) (sc : SizeConfig)
    (h : sizeLookup cfg size = SizeResolution.entry sc) : resolveSize cfg size = sc := by
  simp only [sizeLookup] at h
  simp only [resolveSize]
  cases hk : lookupKey cfg.sizes (resolveSizeKey size) with
  | some v =>
    rw [hk] at h
    simp only [SizeResolution.entry.injEq] at h
    simp [hk, h]
  | none =>
    rw [hk] at h
    by_cases hp : objectProtoKeys.contains (resolveSizeKey size) = true
    · have hmem : resolveSizeKey size ∈ objectProtoKeys := List.elem_iff.mp hp
      simp [hmem] at h
    · simp only [Bool.not_eq_true] at hp
      simp only [hp, Bool.false_eq_true, if_false, SizeResolution.entry.injEq] at h
      simp [hk, h]

/-- C9 counterexample: the size key `toString` is absent from the size
mapping, yet the JS bracket lookup finds the inherited `Object.prototype`
method, a truthy value, so the fallback to the default entry never fires
and resolution does not produce the default entry that omitting the size
produces. -/
theorem size_resolution_counterexample :
    lookupKey defaultConfig.sizes "toString" = none ∧
    sizeLookup defaultConfig (some "toString") = SizeResolution.protoValue "toString" ∧
    SizeResolution.protoValue "toString" ≠ SizeResolution.entry defaultConfig.defaultSize ∧
    sizeLookup defaultConfig none = SizeResolution.entry defaultConfig.defaultSize := by
  refine ⟨by decide, by decide, by decide, by decide⟩

/-- C9 (amended): omitting the size and supplying an unknown key both
resolve to the default entry (2480 by 3508, A4) provided the unknown key is
not an `Object.prototype` property name; any key present in the size
mapping resolves to its own entry; but an unknown key that is an
`Object.prototype` property name (such as `toString`) selects the
inherited truthy value, not a size entry, and the fallback never fires. -/
theorem size_resolution :
    sizeLookup defaultConfig none = SizeResolution.entry defaultConfig.defaultSize ∧
    sizeLookup defaultConfig (some "bogus-key") = SizeResolution.entry defaultConfig.defaultSize ∧
    resolveSize defaultConfig none = defaultConfig.defaultSize ∧
    resolveSize defaultConfig (some "bogus-key") = defaultConfig.defaultSize ∧
    defaultConfig.defaultSize = { width := 2480, height := 3508, name := "A4 (300dpi)" } ∧
    (∀ k sc, lookupKey defaultConfig.sizes k = some sc →
       sizeLookup defaultConfig (some k) = SizeResolution.entry sc) ∧
    (∀ k, lookupKey defaultConfig.sizes k = none → objectProtoKeys.contains k = false →
       sizeLookup defaultConfig (some k) = SizeResolution.entry defaultConfig.defaultSize) ∧
    (∀ k, k ∈ objectProtoKeys →
       sizeLookup defaultConfig (some k) = SizeResolution.protoValue k) := by
  refine ⟨by decide, by decide, by decide, by decide, by decide, ?_, ?_, ?_⟩
  · intro k sc hk
    by_cases hk0 : k = ""
    · rw [hk0] at hk
      simp [lookupKey, List.find?, defaultConfig] at hk
    · have hne : (k == "") = false := beq_eq_false_iff_ne.mpr hk0
      simp [sizeLookup, resolveSizeKey, hne, hk]
  · intro k hnone hproto
    by_cases hk0 : k = ""
    · rw [hk0]
      decide
    · have hne : (k == "") = false := beq_eq_false_iff_ne.mpr hk0
      have hmem : k ∉ objectProtoKeys := fun hm =>
        absurd ((List.elem_iff.mpr hm).symm.trans hproto) (by decide)
      simp [sizeLookup, resolveSizeKey, hne, hnone, hmem]
  · intro k hk
    fin_cases hk <;> decide

/-- Witness for the amended C9 theorem at the known key for the Instagram
square size. -/
theorem size_resolution_witness :
    lookupKey defaultConfig.sizes "instagram"
        = some { width := 1080, height := 1080, name := "Instagram Square" } ∧
    sizeLookup defaultConfig (some "instagram")
        = SizeResolution.entry { width := 1080, height := 1080, name := "Instagram Square" } :=
  ⟨by decide, size_resolution.2.2.2.2.2.1 "instagram" _ (by decide)⟩

/-- C7 counterexample: with a Gemini credential set, resolving
`nano-banana-pro` yields an adapter bound to model
`gemini-3-pro-image-preview`, not the descriptor's `defaultModel`
`nano-banana-pro`; and with only `XAI_API_KEY` set, resolving `grok`
yields an adapter even though the descriptor's designated variable
`GROK_API_KEY` is unset. -/
theorem provider_resolution_counterexample :
    getProvider [("GEMINI_API_KEY", "k")] "nano-banana-pro" defaultConfig
        = some { name := "nano-banana-pro", apiKey := "k", model := "gemini-3-pro-image-preview" } ∧
    (lookupKey defaultConfig.providers "nano-banana-pro").map (fun p => p.defaultModel)
        = some "nano-banana-pro" ∧
    ("gemini-3-pro-image-preview" : String) ≠ "nano-banana-pro" ∧
    getProvider [("XAI_API_KEY", "k")] "grok" defaultConfig
        = some { name := "grok", apiKey := "k", model := "grok-2-image" } ∧
    envGet [("XAI_API_KEY", "k")] "GROK_API_KEY" = none := by
  refine ⟨by decide, by decide, by decide, by decide, by decide⟩

/-- C7 (amended): provider resolution never throws; on the default
configuration it is fully characterized, for every environment, by the
factory functions: each configured provider is unavailable exactly when its
credential sources are unset or empty (for `grok`, both `GROK_API_KEY` and
the alternate `XAI_API_KEY`), and otherwise yields an adapter bound to that
credential and the factory's own hardcoded default model id — for
`nano-banana-pro` that is `gemini-3-pro-image-preview`, not the
descriptor's `defaultModel`; unknown provider ids resolve to unavailable. -/
theorem provider_resolution (env : Env) :
    getProvider env "gemini" defaultConfig
        = (jsTruthy (envGet env "GEMINI_API_KEY")).map
            (fun k => { name := "gemini", apiKey := k, model := "gemini-2.5-flash-image" }) ∧
    getProvider env "nano-banana-pro" defaultConfig
        = (jsTruthy (envGet env "GEMINI_API_KEY")).map
            (fun k => { name := "nano-banana-pro", apiKey := k, model := "gemini-3-pro-image-preview" }) ∧
    getProvider env "grok" defaultConfig
        = ((jsTruthy (envGet env "GROK_API_KEY")).orElse
              (fun _ => jsTruthy (envGet env "XAI_API_KEY"))).map
            (fun k => { name := "grok", apiKey := k, model := "grok-2-image" }) ∧
    getProvider env "openai" defaultConfig
        = (jsTruthy (envGet env "OPENAI_API_KEY")).map
            (fun k => { name := "openai", apiKey := k, model := "dall-e-3" }) ∧
    (∀ name, name ∉ (["gemini", "nano-banana-pro", "grok", "openai"] : List String) →
       getProvider env name defaultConfig = none) := by
  refine ⟨?_, ?_, ?_, ?_, ?_⟩
  · cases h : jsTruthy (envGet env "GEMINI_API_KEY") <;>
      simp [getProvider, createGeminiProvider, lookupKey, List.find?, defaultConfig, h]
  · cases h : jsTruthy (envGet env "GEMINI_API_KEY") <;>
      simp [getProvider, createNanaBananaProProvider, lookupKey, List.find?, defaultConfig, h]
  · cases h1 : jsTruthy (envGet env "GROK_API_KEY") <;>
      cases h2 : jsTruthy (envGet env "XAI_API_KEY") <;>
      simp [getProvider, createGrokProvider, lookupKey, List.find?, defaultConfig, h1, h2,
        Option.orElse]
  · cases h : jsTruthy (envGet env "OPENAI_API_KEY") <;>
      simp [getProvider, createOpenAIProvider, lookupKey, List.find?, defaultConfig, h]
  · intro name hname
    simp only [List.mem_cons, List.not_mem_nil, or_false, not_or] at hname
    obtain ⟨h1, h2, h3, h4⟩ := hname
    have e1 : ("gemini" == name) = false := beq_eq_false_iff_ne.mpr (Ne.symm h1)
    have e2 : ("nano-banana-pro" == name) = false := beq_eq_false_iff_ne.mpr (Ne.symm h2)
    have e3 : ("grok" == name) = false := beq_eq_false_iff_ne.mpr (Ne.symm h3)
    have e4 : ("openai" == name) = false := beq_eq_false_iff_ne.mpr (Ne.symm h4)
    simp [getProvider, lookupKey, List.find?, defaultConfig, e1, e2, e3, e4]

/-- Witness for the amended C7 theorem: an unknown provider id resolves to
unavailable in the empty environment. -/
theorem provider_resolution_witness :
    (("bogus" : String) ∉ (["gemini", "nano-banana-pro", "grok", "openai"] : List String)) ∧
    getProvider [] "bogus" defaultConfig = none :=
  ⟨by decide, (provider_resolution []).2.2.2.2 "bogus" (by decide)⟩

/-- The length of the per-style outcome specification equals the number of
styles. -/
theorem outcomesSpec_length (gen : Gen) (od ev : String) (sc : SizeConfig) :
    ∀ (l : List StyleConfig) (i : Nat), (outcomesSpec gen od ev sc i l).length = l.length := by
  intro l
  induction l with
  | nil => intro i; rfl
  | cons s rest ih => intro i; simp [outcomesSpec, ih]

/-- Every specified outcome carries its own style's id and name, whether
the call succeeded or failed. -/
theorem outcomesSpec_idName (gen : Gen) (od ev : String) (sc : SizeConfig) :
    ∀ (l : List StyleConfig) (i : Nat),
      (outcomesSpec gen od ev sc i l).map (fun r => (r.style, r.styleName))
        = l.map (fun s => (s.id, s.name)) := by
  intro l
  induction l with
  | nil => intro i; rfl
  | cons s rest ih =>
    intro i
    simp only [outcomesSpec, List.map_cons, ih]
    congr 1
    unfold styleOutcomeOf
    cases gen i (requestFor ev sc s) <;> rfl

/-- When the abort signal is never set over the loop's range, the loop
visits every style and produces exactly the per-style independent outcome,
request, file and update lists. -/
theorem genLoop_noabort (gen : Gen) (aborted : Nat → Bool) (od ev : String) (sc : SizeConfig)
    (total : Nat) :
    ∀ (styles : List StyleConfig) (i : Nat),
      (∀ j, j < styles.length → aborted (i + j) = false) →
      genLoop gen aborted od ev sc total i styles =
        (outcomesSpec gen od ev sc i styles,
         ⟨[], filesSpec gen od ev sc i styles,
          styles.map (requestFor ev sc), updatesSpec total i styles⟩) := by
  intro styles
  induction styles with
  | nil => intro i h; rfl
  | cons s rest ih =>
    intro i h
    have h0 : aborted i = false := by simpa using h 0 (Nat.succ_pos _)
    have hrest : ∀ j, j < rest.length → aborted (i + 1 + j) = false := by
      intro j hj
      have hh := h (j + 1) (by simpa using Nat.succ_lt_succ hj)
      have harith : i + (j + 1) = i + 1 + j := by omega
      rwa [harith] at hh
    cases hg : gen i (requestFor ev sc s) with
    | ok image =>
      simp [genLoop, h0, hg, outcomesSpec, filesSpec, updatesSpec, styleOutcomeOf,
        ih (i + 1) hrest]
    | error msg =>
      simp [genLoop, h0, hg, outcomesSpec, filesSpec, updatesSpec, styleOutcomeOf,
        ih (i + 1) hrest]

/-- For an arbitrary abort signal, the loop produces the outcomes and the
network requests of exactly some initial segment of the style list, in
order. -/
theorem genLoop_attempted (gen : Gen) (aborted : Nat → Bool) (od ev : String) (sc : SizeConfig)
    (total : Nat) :
    ∀ (styles : List StyleConfig) (i : Nat),
      ∃ n, n ≤ styles.length ∧
        (genLoop gen aborted od ev sc total i styles).1
          = outcomesSpec gen od ev sc i (styles.take n) ∧
        (genLoop gen aborted od ev sc total i styles).2.requests
          = (styles.take n).map (requestFor ev sc) := by
  intro styles
  induction styles with
  | nil => intro i; exact ⟨0, Nat.le_refl 0, rfl, rfl⟩
  | cons s rest ih =>
    intro i
    by_cases h0 : aborted i
    · refine ⟨0, Nat.zero_le _, ?_, ?_⟩ <;> simp [genLoop, h0, outcomesSpec]
    · obtain ⟨n, hn, hr, hq⟩ := ih (i + 1)
      simp only [Bool.not_eq_true] at h0
      refine ⟨n + 1, Nat.succ_le_succ hn, ?_, ?_⟩ <;>
        cases hg : gen i (requestFor ev sc s) <;>
          simp [genLoop, h0, hg, outcomesSpec, styleOutcomeOf, hr, hq, List.take_succ_cons]

/-- With the abort signal becoming set from iteration `N` on, the loop
starting at iteration `i ≤ N` attempts exactly the first `N - i` styles and
emits one further progress notification (for the style at which the abort
check fires) when one remains. -/
theorem genLoop_abortAt (gen : Gen) (N : Nat) (od ev : String) (sc : SizeConfig)
    (total : Nat) :
    ∀ (styles : List StyleConfig) (i : Nat), i ≤ N →
      genLoop gen (fun j => decide (N ≤ j)) od ev sc total i styles =
        (outcomesSpec gen od ev sc i (styles.take (N - i)),
         ⟨[], filesSpec gen od ev sc i (styles.take (N - i)),
          (styles.take (N - i)).map (requestFor ev sc),
          updatesSpec total i (styles.take (N - i + 1))⟩) := by
  intro styles
  induction styles with
  | nil =>
    intro i hi
    simp [genLoop, noEffects, outcomesSpec, filesSpec, updatesSpec]
  | cons s rest ih =>
    intro i hi
    rcases Nat.eq_or_lt_of_le hi with heq | hlt
    · subst heq
      have hab : decide (i ≤ i) = true := by simp
      simp [genLoop, hab, Nat.sub_self, outcomesSpec, filesSpec, updatesSpec, List.take_succ_cons]
    · have hab : decide (N ≤ i) = false := by
        simp [Nat.not_le.mpr hlt]
      have hs1 : N - i = (N - (i + 1)) + 1 := by omega
      cases hg : gen i (requestFor ev sc s) <;>
        simp [genLoop, hab, hg, hs1, outcomesSpec, filesSpec, updatesSpec, styleOutcomeOf,
          ih (i + 1) hlt, List.take_succ_cons]

/-- The length of the update specification equals the number of styles. -/
theorem updatesSpec_length (total : Nat) :
    ∀ (l : List StyleConfig) (i : Nat), (updatesSpec total i l).length = l.length := by
  intro l
  induction l with
  | nil => intro i; rfl
  | cons s rest ih => intro i; simp [updatesSpec, ih]

/-- C2: every run records exactly one outcome per style actually attempted
(one outcome per network request), the outcomes follow the selected style
sequence in order — an initial segment of it — each carrying its style's id
and name, and their number never exceeds the number of selected styles. -/
theorem outcome_per_attempted_style (cfg : Config) (env : Env) (gen : Gen)
    (aborted : Nat → Bool) (od : String) (params : DesignPosterInput) :
    (((execute cfg env gen aborted od params).1).resultsList).length
        ≤ (stylesToUse cfg params.styles).length ∧
    (((execute cfg env gen aborted od params).1).resultsList).length
        = (((execute cfg env gen aborted od params).2).requests).length ∧
    (((execute cfg env gen aborted od params).1).resultsList).map
          (fun r => (r.style, r.styleName))
        = ((stylesToUse cfg params.styles).take
             (((execute cfg env gen aborted od params).1).resultsList).length).map
            (fun s => (s.id, s.name)) := by
  obtain ⟨n, hn, hr, hq⟩ :=
    genLoop_attempted gen aborted od params.eventInfo (resolveSize cfg params.size)
      (stylesToUse cfg params.styles).length (stylesToUse cfg params.styles) 0
  by_cases hsel : (stylesToUse cfg params.styles).length = 0
  · have hselb : ((stylesToUse cfg params.styles).length == 0) = true := by simp [hsel]
    simp [execute, hselb, ExecResult.resultsList, noEffects]
  · have hselb : ((stylesToUse cfg params.styles).length == 0) = false := by simp [hsel]
    rcases hp : getProvider env (resolveProviderName cfg params.provider) cfg with _ | a
    · simp [execute, hselb, hp, ExecResult.resultsList, noEffects]
    · have hlen : ((stylesToUse cfg params.styles).take n).length = n := by
        rw [List.length_take, Nat.min_eq_left hn]
      refine ⟨?_, ?_, ?_⟩ <;>
        simp [execute, hselb, hp, ExecResult.resultsList, hr, hq, outcomesSpec_length,
          outcomesSpec_idName, hlen, List.length_map, hn]

/-- C1: with no cancellation, a run past the configuration checks yields
the per-style independent outcome list (each entry a function of its own
style's call only, so one style's thrown error is caught, never propagated,
and never removes or alters a sibling's outcome and the loop attempts every
style); a call that throws is recorded as that style's failure outcome
carrying exactly the thrown message; and the OpenAI adapter's thrown
message on a non-success HTTP status carries the vendor status and response
body. -/
theorem failure_isolated (cfg : Config) (env : Env) (gen : Gen) (aborted : Nat → Bool)
    (od : String) (params : DesignPosterInput)
    (hnoabort : ∀ i, aborted i = false) :
    (((execute cfg env gen aborted od params).1).isDone = true →
       ((execute cfg env gen aborted od params).1).resultsList
         = outcomesSpec gen od params.eventInfo (resolveSize cfg params.size) 0
             (stylesToUse cfg params.styles)) ∧
    (∀ i style msg,
       gen i (requestFor params.eventInfo (resolveSize cfg params.size) style)
           = Except.error msg →
       styleOutcomeOf gen od params.eventInfo (resolveSize cfg params.size) i style
         = ⟨style.id, style.name, "", false, some msg, none, none⟩) ∧
    (∀ resp now, resp.ok = false →
       openaiGenerate resp now
         = Except.error ("OpenAI API error: " ++ toString resp.status ++ " - " ++ resp.body)) := by
  refine ⟨?_, ?_, ?_⟩
  · intro hdone
    have hloop := genLoop_noabort gen aborted od params.eventInfo (resolveSize cfg params.size)
      (stylesToUse cfg params.styles).length (stylesToUse cfg params.styles) 0
      (fun j _ => hnoabort (0 + j))
    by_cases hsel : (stylesToUse cfg params.styles).length = 0
    · have hselb : ((stylesToUse cfg params.styles).length == 0) = true := by simp [hsel]
      simp [execute, hselb, ExecResult.isDone] at hdone
    · have hselb : ((stylesToUse cfg params.styles).length == 0) = false := by simp [hsel]
      rcases hp : getProvider env (resolveProviderName cfg params.provider) cfg with _ | a
      · simp [execute, hselb, hp, ExecResult.isDone] at hdone
      · simp [execute, hselb, hp, ExecResult.resultsList, hloop]
  · intro i style msg hg
    unfold styleOutcomeOf
    rw [hg]
  · intro resp now hok
    simp [openaiGenerate, hok]

/-- Witness for the C1 theorem: a concrete two-style run whose first call
throws and whose second succeeds still returns the full independent
per-style outcome list. -/
theorem failure_isolated_witness :
    ((execute defaultConfig demoEnv demoGenFail0 (fun _ => false) "/tmp/out"
        demoParamsTwoStyles).1).resultsList
      = outcomesSpec demoGenFail0 "/tmp/out" demoParamsTwoStyles.eventInfo
          (resolveSize defaultConfig demoParamsTwoStyles.size) 0
          (stylesToUse defaultConfig demoParamsTwoStyles.styles) :=
  (failure_isolated defaultConfig demoEnv demoGenFail0 (fun _ => false) "/tmp/out"
      demoParamsTwoStyles (fun _ => rfl)).1 (by rfl)

/-- C3: an empty selected style list yields the single `no matching styles`
configuration error, and an unavailable resolved provider (with a non-empty
selection) yields the single `provider unavailable` configuration error; in
both cases the run returns no partial outcomes and performs no directory
creation, no file write, no network call and no progress notification. -/
theorem config_error_short_circuit (cfg : Config) (env : Env) (gen : Gen)
    (aborted : Nat → Bool) (od : String) (params : DesignPosterInput) :
    (stylesToUse cfg params.styles = [] →
       execute cfg env gen aborted od params
         = (ExecResult.configError "錯誤：找不到指定的風格" "No matching styles found",
            noEffects)) ∧
    (stylesToUse cfg params.styles ≠ [] →
       getProvider env (resolveProviderName cfg params.provider) cfg = none →
       execute cfg env gen aborted od params
         = (ExecResult.configError
              ("錯誤：圖片生成服務 " ++ resolveProviderName cfg params.provider
                 ++ " 不可用。請確認 API 金鑰已設定。")
              ("Provider " ++ resolveProviderName cfg params.provider ++ " not available"),
            noEffects)) := by
  constructor
  · intro hempty
    have hselb : ((stylesToUse cfg params.styles).length == 0) = true := by simp [hempty]
    simp [execute, hselb]
  · intro hne hp
    have hlen : (stylesToUse cfg params.styles).length ≠ 0 := by
      simpa [List.length_eq_zero] using hne
    have hselb : ((stylesToUse cfg params.styles).length == 0) = false := by simp [hlen]
    simp [execute, hselb, hp]

/-- Witness for the C3 theorem: a fully-unmatched requested style id yields
the style configuration error, and requesting OpenAI without its credential
yields the provider configuration error, both with the empty effect
trace. -/
theorem config_error_short_circuit_witness :
    execute defaultConfig demoEnv demoGenOk (fun _ => false) "/tmp/out" demoParamsUnknownStyle
        = (ExecResult.configError "錯誤：找不到指定的風格" "No matching styles found",
           noEffects) ∧
    execute defaultConfig demoEnv demoGenOk (fun _ => false) "/tmp/out" demoParamsOpenAI
        = (ExecResult.configError
             ("錯誤：圖片生成服務 " ++ resolveProviderName defaultConfig demoParamsOpenAI.provider
                ++ " 不可用。請確認 API 金鑰已設定。")
             ("Provider " ++ resolveProviderName defaultConfig demoParamsOpenAI.provider
                ++ " not available"),
           noEffects) :=
  ⟨(config_error_short_circuit defaultConfig demoEnv demoGenOk (fun _ => false) "/tmp/out"
      demoParamsUnknownStyle).1 (by decide),
   (config_error_short_circuit defaultConfig demoEnv demoGenOk (fun _ => false) "/tmp/out"
      demoParamsOpenAI).2 (by decide) (by decide)⟩

/-- C5: with a cancellation signal that becomes set from iteration `N` on
(after the first `N` calls complete, before call `N + 1` begins), a run
past the configuration checks stops at iteration `N + 1` before its network
call: exactly `N` outcomes are returned — the per-style outcomes of the
first `N` selected styles, none of any kind for the rest — and exactly `N`
network requests were issued. -/
theorem cancellation_stops_loop (cfg : Config) (env : Env) (gen : Gen) (N : Nat)
    (od : String) (params : DesignPosterInput)
    (hN : N < (stylesToUse cfg params.styles).length)
    (hdone : ((execute cfg env gen (fun j => decide (N ≤ j)) od params).1).isDone = true) :
    ((execute cfg env gen (fun j => decide (N ≤ j)) od params).1).resultsList
        = outcomesSpec gen od params.eventInfo (resolveSize cfg params.size) 0
            ((stylesToUse cfg params.styles).take N) ∧
    (((execute cfg env gen (fun j => decide (N ≤ j)) od params).1).resultsList).length = N ∧
    ((execute cfg env gen (fun j => decide (N ≤ j)) od params).2).requests
        = ((stylesToUse cfg params.styles).take N).map
            (requestFor params.eventInfo (resolveSize cfg params.size)) ∧
    (((execute cfg env gen (fun j => decide (N ≤ j)) od params).2).requests).length = N := by
  have hloop := genLoop_abortAt gen N od params.eventInfo (resolveSize cfg params.size)
    (stylesToUse cfg params.styles).length (stylesToUse cfg params.styles) 0 (Nat.zero_le N)
  rw [Nat.sub_zero] at hloop
  have hlen : ((stylesToUse cfg params.styles).take N).length = N := by
    rw [List.length_take, Nat.min_eq_left (Nat.le_of_lt hN)]
  by_cases hsel : (stylesToUse cfg params.styles).length = 0
  · exact absurd hN (by omega)
  · have hselb : ((stylesToUse cfg params.styles).length == 0) = false := by simp [hsel]
    rcases hp : getProvider env (resolveProviderName cfg params.provider) cfg with _ | a
    · have : False := by
        simp [execute, hselb, hp, ExecResult.isDone] at hdone
      exact absurd this (by simp)
    · refine ⟨?_, ?_, ?_, ?_⟩ <;>
        simp [execute, hselb, hp, ExecResult.resultsList, hloop, outcomesSpec_length, hlen,
          List.length_map, Nat.le_of_lt hN]

/-- Witness for the C5 theorem: a three-style run cancelled from iteration
one onwards returns exactly one outcome. -/
theorem cancellation_stops_loop_witness :
    (((execute defaultConfig demoEnv demoGenOk (fun j => decide (1 ≤ j)) "/tmp/out"
        demoParamsAll).1).resultsList).length = 1 :=
  (cancellation_stops_loop defaultConfig demoEnv demoGenOk 1 "/tmp/out" demoParamsAll
     (by decide) (by rfl)).2.1

/-- C10: the progress notification of an iteration is emitted before that
iteration's cancellation check, so a run cancelled from iteration `N` on
(with a style remaining) has emitted the notifications of the first `N + 1`
selected styles — including the one announcing the style that is never
called — and the number of notifications is exactly one more than the
number of returned outcomes. -/
theorem progress_update_precedes_abort_check (cfg : Config) (env : Env) (gen : Gen) (N : Nat)
    (od : String) (params : DesignPosterInput)
    (hN : N < (stylesToUse cfg params.styles).length)
    (hdone : ((execute cfg env gen (fun j => decide (N ≤ j)) od params).1).isDone = true) :
    (((execute cfg env gen (fun j => decide (N ≤ j)) od params).2).updates).length
        = (((execute cfg env gen (fun j => decide (N ≤ j)) od params).1).resultsList).length
            + 1 ∧
    ((execute cfg env gen (fun j => decide (N ≤ j)) od params).2).updates
        = updatesSpec (stylesToUse cfg params.styles).length 0
            ((stylesToUse cfg params.styles).take (N + 1)) := by
  have hloop := genLoop_abortAt gen N od params.eventInfo (resolveSize cfg params.size)
    (stylesToUse cfg params.styles).length (stylesToUse cfg params.styles) 0 (Nat.zero_le N)
  rw [Nat.sub_zero] at hloop
  have hlenN : ((stylesToUse cfg params.styles).take N).length = N := by
    rw [List.length_take, Nat.min_eq_left (Nat.le_of_lt hN)]
  have hlenN1 : ((stylesToUse cfg params.styles).take (N + 1)).length = N + 1 := by
    rw [List.length_take, Nat.min_eq_left (Nat.succ_le_of_lt hN)]
  by_cases hsel : (stylesToUse cfg params.styles).length = 0
  · exact absurd hN (by omega)
  · have hselb : ((stylesToUse cfg params.styles).length == 0) = false := by simp [hsel]
    rcases hp : getProvider env (resolveProviderName cfg params.provider) cfg with _ | a
    · have : False := by
        simp [execute, hselb, hp, ExecResult.isDone] at hdone
      exact absurd this (by simp)
    · constructor <;>
        simp [execute, hselb, hp, ExecResult.resultsList, hloop, outcomesSpec_length,
          updatesSpec_length, hlenN, hlenN1]

/-- Witness for the C10 theorem: in the cancelled three-style run, two
notifications were emitted for one returned outcome. -/
theorem progress_update_precedes_abort_check_witness :
    (((execute defaultConfig demoEnv demoGenOk (fun j => decide (1 ≤ j)) "/tmp/out"
        demoParamsAll).2).updates).length
      = (((execute defaultConfig demoEnv demoGenOk (fun j => decide (1 ≤ j)) "/tmp/out"
        demoParamsAll).1).resultsList).length + 1 :=
  (progress_update_precedes_abort_check defaultConfig demoEnv demoGenOk 1 "/tmp/out"
     demoParamsAll (by decide) (by rfl)).1
